import Mathlib

/-! The NumArray compatibility layer of `Lib/ndimage/src/nd_image.h`.

A shallow embedding of the adapter functions of `nd_image.h` (`satisfies`,
`NA_InputArray`, `NA_OutputArray`, `NA_IoArray`, `NA_elements`, `NA_ByteOrder`,
`NA_NewAllFromBuffer`, `NA_NewAll`, `NA_NewArray`) and theorems about them.

Conventions of the embedding.

* C pointers to Python objects are indices (`Ptr`) into the heap of a `World`; the NULL pointer
  is the `none` of `Option Ptr`.  A dereference of NULL or of a pointer to no live object is
  undefined behaviour in C and is the outcome `Outcome.undefined` here.
* The C `int` masks (`flags`, `requirements`) are integers with the two's complement bitwise
  operations `Int.land`, `Int.lor`, `Int.lnot`, which agree with the C operators on every `int`.
* `unsigned long` arithmetic is arithmetic modulo `2 ^ NPY_BITSOF_LONG`.
* The pair (rank, pointer to the dimensions) is a list: `nd` is the length of `dimensions`,
  and the arguments `ndim, shape` of the constructors are one list `shape`.
* The NumPy C API (`numpy/noprefix.h`) is not part of the repository.  Its constants and macros are
  modelled where the header uses them, and its functions are the fields of a `Runtime`.
-/

namespace NdImage

/-! ## Data model -/

/-- A pointer to a Python object: an index into the heap. -/
abbrev Ptr := Nat

/-- The enum `NumarrayType` (lines 43-67).  A C enum is an `int`; every tag other than `tAny`
is a NumPy type number. -/
abbrev NumarrayType := Int

/-- The tag `tAny = -1` (line 45). -/
def tAny : NumarrayType := -1

/-- Modelled from the spec: the NumPy type number `PyArray_FLOAT64` (the header `numpy/noprefix.h`
is not under src/); NumPy numbers the C `double` type 12. -/
def PyArray_FLOAT64 : Int := 12

/-- The tag `tFloat64 = PyArray_FLOAT64` (line 56). -/
def tFloat64 : NumarrayType := PyArray_FLOAT64

/-- The tag `tDefault = tFloat64` (line 61). -/
def tDefault : NumarrayType := tFloat64

/-- Modelled from the spec: NumPy's `PyArray_NTYPES`, the number of built-in types (the header
`numpy/noprefix.h` is not under src/): the type numbers of the built-in types are 0 to 20, and
21 is the number of no type. -/
def PyArray_NTYPES : Int := 21

/-- The tag `tMaxType = PyArray_NTYPES` (line 60), the sentinel that ends the enum. -/
def tMaxType : NumarrayType := PyArray_NTYPES

/-- Modelled from the spec: NumPy's `PyArray_Descr` (not under src/), the element type tag
"paired with fixed byte layout": the type number, the element size in bytes, and the byte-order
flag (whether the stored order differs from the host order). -/
structure PyArray_Descr where
  type_num : Int
  elsize : Int
  byteswapped : Bool
  deriving DecidableEq

/-- Modelled from the spec: NumPy's `PyArrayObject` (not under src/), the "Array Handle": the data
buffer (the byte at each offset), the shape, the base back-reference, the descriptor and the flag
word.  The field `nd` of the C struct is the length of `dimensions`. -/
structure PyArrayObject where
  data : Nat → Nat
  dimensions : List Int
  base : Option Ptr
  descr : PyArray_Descr
  flags : Int

/-- The rank `a->nd`. -/
def PyArrayObject.nd (a : PyArrayObject) : Nat := a.dimensions.length

/-- A Python object on the heap: its reference count, and the array it is when it is an
`ndarray` (`array = none` for every other kind of object, for which `PyArray_Check` is 0). -/
structure PyObject where
  ob_refcnt : Int
  array : Option PyArrayObject

/-- The Python error indicator: a `TypeError` with its message (the only exception the header
raises itself, by `PyErr_Format`), or an exception raised inside the host runtime. -/
inductive PyErr where
  | TypeError (msg : String)
  | host
  deriving DecidableEq

/-- The state the functions run in: the heap of Python objects and the error indicator. -/
structure World where
  heap : List PyObject
  err : Option PyErr

/-- The host array runtime and the platform, the "external collaborator" of the adapter:
the widths of `unsigned long` and of `npy_intp`, the byte order of the host, and the NumPy
functions the header calls without defining them. -/
structure Runtime where
  /-- The number of bits of `unsigned long` (the macro `NPY_BITSOF_LONG` of line 62). -/
  NPY_BITSOF_LONG : Nat
  /-- The number of bits of `npy_intp`, the type `maybelong` of line 40. -/
  NPY_BITSOF_INTP : Nat
  /-- Whether the host stores the least significant byte first. -/
  littleEndian : Bool
  /-- The address of the object `None`. -/
  Py_None : Ptr
  /-- NumPy's `PyArray_DescrFromType`: the descriptor of a type number, or NULL. -/
  PyArray_DescrFromType : Int → Option PyArray_Descr
  /-- NumPy's `PyArray_DescrNewByteorder`: a descriptor in another byte order, or NULL. -/
  PyArray_DescrNewByteorder : PyArray_Descr → Char → Option PyArray_Descr
  /-- Whether the runtime has memory for storage of the given number of bytes. -/
  memoryAvailable : World → Nat → Bool
  /-- The bytes fresh storage holds before anything is written to it. -/
  garbage : World → Nat → Nat
  /-- The flag word the runtime gives a new array of the given descriptor and shape. -/
  newFlags : PyArray_Descr → List Int → Int
  /-- NumPy's `PyArray_CheckFromAny(op, descr, min_depth, max_depth, requires, NULL)`. -/
  PyArray_CheckFromAny : World → Ptr → Option PyArray_Descr → Int → Int → Int → Option Ptr × World
  /-- NumPy's `PyArray_FromBuffer(buf, dtype, count, offset)`. -/
  PyArray_FromBuffer : World → Ptr → PyArray_Descr → Int → Int → Option Ptr × World
  /-- NumPy's `PyArray_Newshape(self, newdims, PyArray_CORDER)`. -/
  PyArray_Newshape : World → Ptr → List Int → Option Ptr × World

/-- What a call of one of the adapter functions does: it returns a pointer (or NULL) in a new
world, or its behaviour is undefined (it dereferences NULL or a dangling pointer). -/
inductive Outcome where
  | returned (result : Option Ptr) (w : World)
  | undefined

/-! ## NumPy constants and macros used by the header -/

/-- Modelled from the spec: NumPy flag `NPY_CONTIGUOUS` (not under src/). -/
def NPY_CONTIGUOUS : Int := 0x0001

/-- Modelled from the spec: NumPy flag `NPY_ENSURECOPY`, the force-copy requirement (not under src/). -/
def NPY_ENSURECOPY : Int := 0x0020

/-- Modelled from the spec: NumPy flag `NPY_ALIGNED` (not under src/). -/
def NPY_ALIGNED : Int := 0x0100

/-- Modelled from the spec: NumPy flag `NPY_NOTSWAPPED` (not under src/). -/
def NPY_NOTSWAPPED : Int := 0x0200

/-- Modelled from the spec: NumPy flag `NPY_WRITEABLE` (not under src/). -/
def NPY_WRITEABLE : Int := 0x0400

/-- Modelled from the spec: NumPy flag `NPY_UPDATEIFCOPY`, the copy-back flag (not under src/). -/
def NPY_UPDATEIFCOPY : Int := 0x1000

/-- Modelled from the spec: NumPy's `NPY_BEHAVED = NPY_ALIGNED | NPY_WRITEABLE` (not under src/). -/
def NPY_BEHAVED : Int := Int.lor NPY_ALIGNED NPY_WRITEABLE

/-- Modelled from the spec: NumPy's `NPY_CARRAY = NPY_CONTIGUOUS | NPY_BEHAVED` (not under src/). -/
def NPY_CARRAY : Int := Int.lor NPY_CONTIGUOUS NPY_BEHAVED

/-- Modelled from the spec: NumPy's `NPY_MAXDIMS`, the "fixed maximum" rank (not under src/). -/
def NPY_MAXDIMS : Nat := 32

/-- Modelled from the spec: NumPy's `PyArray_DEFAULT`, the type used when no descriptor is given
(not under src/); it is the C `double`. -/
def PyArray_DEFAULT : Int := 12

/-- Modelled from the spec: NumPy's `PyArray_SWAP`, the byte-order character asking for the
opposite order (not under src/). -/
def PyArray_SWAP : Char := 's'

/-- Modelled from the spec: NumPy's `PyArray_CHKFLAGS(m, FLAGS)` (not under src/):
`(m->flags & FLAGS) == FLAGS`. -/
def PyArray_CHKFLAGS (m : PyArrayObject) (FLAGS : Int) : Bool :=
  decide (Int.land m.flags FLAGS = FLAGS)

/-- Modelled from the spec: NumPy's `PyArray_ISCONTIGUOUS` (not under src/). -/
def PyArray_ISCONTIGUOUS (m : PyArrayObject) : Bool := PyArray_CHKFLAGS m NPY_CONTIGUOUS

/-- Modelled from the spec: NumPy's `PyArray_ISWRITEABLE` (not under src/). -/
def PyArray_ISWRITEABLE (m : PyArrayObject) : Bool := PyArray_CHKFLAGS m NPY_WRITEABLE

/-- Modelled from the spec: NumPy's `PyArray_ISALIGNED` (not under src/). -/
def PyArray_ISALIGNED (m : PyArrayObject) : Bool := PyArray_CHKFLAGS m NPY_ALIGNED

/-- Modelled from the spec: NumPy's `PyArray_ISNOTSWAPPED` (not under src/): the byte order of the
descriptor is the order of the host. -/
def PyArray_ISNOTSWAPPED (m : PyArrayObject) : Bool := !m.descr.byteswapped

/-- Modelled from the spec: NumPy's `PyArray_ISBYTESWAPPED` (not under src/):
`!PyArray_ISNOTSWAPPED(m)`. -/
def PyArray_ISBYTESWAPPED (m : PyArrayObject) : Bool := !PyArray_ISNOTSWAPPED m

/-- Modelled from the spec: NumPy's `PyArray_ISCARRAY` (not under src/), the "canonical
packed/contiguous form": `PyArray_CHKFLAGS(m, NPY_CARRAY) && PyArray_ISNOTSWAPPED(m)`, that is
contiguous, aligned, writable and not byte-swapped. -/
def PyArray_ISCARRAY (m : PyArrayObject) : Bool :=
  PyArray_CHKFLAGS m NPY_CARRAY && PyArray_ISNOTSWAPPED m

/-! ## The heap -/

/-- The array a pointer points to, if it points to a live `ndarray`. -/
def World.arrayAt (w : World) (p : Ptr) : Option PyArrayObject :=
  (w.heap[p]?).bind PyObject.array

/-- Replace the object a pointer points to by its image under `f` (nothing changes when the
pointer points to no object). -/
def World.updObject (w : World) (p : Ptr) (f : PyObject → PyObject) : World :=
  match w.heap[p]? with
  | none => w
  | some o => { w with heap := w.heap.set p (f o) }

/-- An assignment to fields of the array `p` points to. -/
def World.updArray (w : World) (p : Ptr) (f : PyArrayObject → PyArrayObject) : World :=
  w.updObject p (fun o => { o with array := o.array.map f })

/-- The macro `Py_INCREF(p)`. -/
def Py_INCREF (w : World) (p : Ptr) : World :=
  w.updObject p (fun o => { o with ob_refcnt := o.ob_refcnt + 1 })

/-- The macro `Py_DECREF(p)`.  Only the count is kept; an object whose count has dropped to zero
is dead, and what its deallocation does is the business of the runtime. -/
def Py_DECREF (w : World) (p : Ptr) : World :=
  w.updObject p (fun o => { o with ob_refcnt := o.ob_refcnt - 1 })

/-- The call `PyErr_Format(PyExc_TypeError, msg)`: set the error indicator. -/
def PyErr_Format (w : World) (msg : String) : World :=
  { w with err := some (PyErr.TypeError msg) }

/-- A failure inside the host runtime: it sets the error indicator. -/
def World.hostError (w : World) : World :=
  { w with err := some PyErr.host }

/-- The message of line 110. -/
def msgOutputArray : String := "NA_OutputArray: only writeable arrays work for output."

/-- The message of line 154. -/
def msgIoArray : String := "NA_IoArray: I/O array must be writable array"

/-- The message of line 252. -/
def msgNewAll : String := "NA_NewAll: non-NumArray result"

/-! ## Allocation in the host runtime -/

/-- The object a successful allocation creates: an array of the given descriptor and shape, with
no base, one reference, the flags the runtime gives a new array, and storage whose bytes are
whatever the memory held. -/
def newArray (rt : Runtime) (w : World) (descr : PyArray_Descr) (dims : List Int) : PyObject where
  ob_refcnt := 1
  array := some { data := rt.garbage w
                  dimensions := dims
                  base := none
                  descr := descr
                  flags := rt.newFlags descr dims }

/-- Modelled from the spec: NumPy's `PyArray_NewFromDescr(&PyArray_Type, descr, nd, dims, NULL,
NULL, 0, NULL)` (not under src/), the "array allocation with a specified shape/type".  It fails
(returns NULL with an exception set) when the rank exceeds `NPY_MAXDIMS`, when a dimension is
negative, when the storage of `elsize * product(dims)` bytes is not addressable by an `npy_intp`,
or when the runtime has no memory for it.  Otherwise the object `newArray` is appended to the
heap and the pointer to it is returned. -/
def PyArray_NewFromDescr (rt : Runtime) (w : World) (descr : PyArray_Descr) (dims : List Int) :
    Option Ptr × World :=
  if dims.length ≤ NPY_MAXDIMS ∧ (∀ d ∈ dims, 0 ≤ d) ∧ 0 ≤ descr.elsize ∧
      descr.elsize * dims.prod < 2 ^ (rt.NPY_BITSOF_INTP - 1) ∧
      rt.memoryAvailable w (descr.elsize * dims.prod).toNat = true then
    (some w.heap.length, { w with heap := w.heap ++ [newArray rt w descr dims] })
  else (none, w.hostError)

/-- Modelled from the spec: NumPy's `PyArray_Empty(nd, dims, type, 0)` (not under src/): a NULL
`type` stands for the default type, and the array is allocated by `PyArray_NewFromDescr`. -/
def PyArray_Empty (rt : Runtime) (w : World) (dims : List Int) (type : Option PyArray_Descr) :
    Option Ptr × World :=
  match (match type with
         | some d => some d
         | none => rt.PyArray_DescrFromType PyArray_DEFAULT) with
  | none => (none, w.hostError)
  | some d => PyArray_NewFromDescr rt w d dims

/-- Modelled from the spec: NumPy's macro `PyArray_XDECREF_ERR(obj)` for a non-NULL `obj` (not
under src/), the release "with its copy-back suppressed": when `obj` is a copy-back temporary its
base is made writable again and the copy-back flag of `obj` is cleared; then `Py_XDECREF(obj)`. -/
def PyArray_XDECREF_ERR (w : World) (obj : Ptr) : Outcome :=
  match w.arrayAt obj with
  | none => Outcome.undefined
  | some arr =>
    if Int.land arr.flags NPY_UPDATEIFCOPY ≠ 0 then
      match arr.base with
      | none => Outcome.undefined
      | some b =>
        match w.arrayAt b with
        | none => Outcome.undefined
        | some _ =>
          let w1 := w.updArray b (fun x => { x with flags := Int.lor x.flags NPY_WRITEABLE })
          let w2 := w1.updArray obj
            (fun x => { x with flags := Int.land x.flags (Int.lnot NPY_UPDATEIFCOPY) })
          Outcome.returned none (Py_DECREF w2 obj)
    else Outcome.returned none (Py_DECREF w obj)

/-! ## The functions of `nd_image.h` -/

/-- The function `satisfies` (lines 72-90). -/
def satisfies (a : PyArrayObject) (requirements : Int) (t : NumarrayType) : Int :=
  let type_ok : Int := if a.descr.type_num = t ∨ t = tAny then 1 else 0
  if PyArray_ISCARRAY a then type_ok
  else if PyArray_ISBYTESWAPPED a ∧ Int.land requirements NPY_NOTSWAPPED ≠ 0 then 0
  else if ¬ PyArray_ISALIGNED a ∧ Int.land requirements NPY_ALIGNED ≠ 0 then 0
  else if ¬ PyArray_ISCONTIGUOUS a ∧ Int.land requirements NPY_CONTIGUOUS ≠ 0 then 0
  else if ¬ PyArray_ISWRITEABLE a ∧ Int.land requirements NPY_WRITEABLE ≠ 0 then 0
  else if Int.land requirements NPY_ENSURECOPY ≠ 0 then 0
  else type_ok

/-- The function `NA_InputArray` (lines 92-100). -/
def NA_InputArray (rt : Runtime) (w : World) (a : Ptr) (t : NumarrayType) (requires : Int) :
    Option Ptr × World :=
  let descr := if t = tAny then none else rt.PyArray_DescrFromType t
  rt.PyArray_CheckFromAny w a descr 0 0 requires

/-- The function `NA_OutputArray` (lines 102-132). -/
def NA_OutputArray (rt : Runtime) (w : World) (a : Ptr) (t : NumarrayType) (requires : Int) :
    Outcome :=
  match w.heap[a]? with
  | none => Outcome.undefined
  | some obj =>
    match obj.array with
    -- lines 108-112, `!PyArray_Check(a)`
    | none => Outcome.returned none (PyErr_Format w msgOutputArray)
    | some arr =>
      -- lines 108-112, `!PyArray_ISWRITEABLE(a)`
      if ¬ PyArray_ISWRITEABLE arr then Outcome.returned none (PyErr_Format w msgOutputArray)
      -- lines 114-117
      else if satisfies arr requires t ≠ 0 then Outcome.returned (some a) (Py_INCREF w a)
      else
        -- lines 118-124
        let dtype := if t = tAny then some arr.descr else rt.PyArray_DescrFromType t
        -- lines 125-126
        match PyArray_Empty rt w arr.dimensions dtype with
        -- line 127 dereferences `ret` without a test for NULL
        | (none, _) => Outcome.undefined
        | (some ret, w1) =>
          -- line 127
          let w2 := w1.updArray ret (fun r => { r with flags := Int.lor r.flags NPY_UPDATEIFCOPY })
          -- line 128
          let w3 := w2.updArray ret (fun r => { r with base := some a })
          -- line 129
          let w4 := w3.updArray a
            (fun s => { s with flags := Int.land s.flags (Int.lnot NPY_WRITEABLE) })
          -- lines 130-131
          Outcome.returned (some ret) (Py_INCREF w4 a)

/-- The function `NA_IoArray` (lines 142-160). -/
def NA_IoArray (rt : Runtime) (w : World) (a : Ptr) (t : NumarrayType) (requires : Int) :
    Outcome :=
  -- line 145
  match NA_InputArray rt w a t (Int.lor requires NPY_UPDATEIFCOPY) with
  -- line 147
  | (none, w1) => Outcome.returned none w1
  | (some shadow, w1) =>
    match w1.arrayAt shadow with
    | none => Outcome.undefined
    | some arr =>
      -- lines 152-157
      if ¬ PyArray_ISWRITEABLE arr then
        PyArray_XDECREF_ERR (PyErr_Format w1 msgIoArray) shadow
      -- line 159
      else Outcome.returned (some shadow) w1

/-- The function `NA_elements` (lines 162-170): the loop `n *= a->dimensions[i]` over the
`a->nd` dimensions, in `unsigned long` arithmetic. -/
def NA_elements (rt : Runtime) (a : PyArrayObject) : Nat :=
  a.dimensions.foldl (fun n d => ((n : Int) * d % 2 ^ rt.NPY_BITSOF_LONG).toNat) 1

/-- The constant `NUM_LITTLE_ENDIAN` (line 172). -/
def NUM_LITTLE_ENDIAN : Int := 0

/-- The constant `NUM_BIG_ENDIAN` (line 173). -/
def NUM_BIG_ENDIAN : Int := 1

/-- The function `NA_ByteOrder` (lines 175-184): the first byte of the `unsigned long` 1 is
non-zero exactly on a little-endian host. -/
def NA_ByteOrder (rt : Runtime) : Int :=
  if rt.littleEndian then NUM_LITTLE_ENDIAN else NUM_BIG_ENDIAN

/-- The product `size` of lines 216-222, an `npy_intp`. -/
def shapeSize (rt : Runtime) (shape : List Int) : Int :=
  shape.foldl (fun size d =>
    (size * d + 2 ^ (rt.NPY_BITSOF_INTP - 1)) % 2 ^ rt.NPY_BITSOF_INTP
      - 2 ^ (rt.NPY_BITSOF_INTP - 1)) 1

/-- The function `NA_NewAllFromBuffer` (lines 187-236).  The arguments `bytestride`, `aligned`
and `writeable` are not used by the function. -/
def NA_NewAllFromBuffer (rt : Runtime) (w : World) (shape : List Int) (type : NumarrayType)
    (bufferObject : Option Ptr) (byteoffset _bytestride : Int)
    (byteorder _aligned _writeable : Int) : Option Ptr × World :=
  -- lines 195-196
  let type := if type = tAny then tDefault else type
  -- lines 198-199
  match rt.PyArray_DescrFromType type with
  | none => (none, w.hostError)
  | some dtype =>
    -- lines 201-207
    match (if byteorder ≠ NA_ByteOrder rt then rt.PyArray_DescrNewByteorder dtype PyArray_SWAP
           else some dtype) with
    | none => (none, w.hostError)
    | some dtype =>
      -- lines 209-214, `bufferObject == NULL`
      match bufferObject with
      | none => PyArray_NewFromDescr rt w dtype shape
      | some buf =>
        -- lines 209-214, `bufferObject == Py_None`
        if buf = rt.Py_None then PyArray_NewFromDescr rt w dtype shape
        else
          -- lines 216-226
          match rt.PyArray_FromBuffer w buf dtype (shapeSize rt shape) byteoffset with
          | (none, w1) => (none, w1)
          | (some self, w1) =>
            -- lines 227-232
            match rt.PyArray_Newshape w1 self shape with
            | (newself, w2) => (newself, Py_DECREF w2 self)

/-- The macro `NA_NBYTES(a)` (line 238): `a->descr->elsize * NA_elements(a)`, an
`unsigned long`. -/
def NA_NBYTES (rt : Runtime) (a : PyArrayObject) : Nat :=
  (a.descr.elsize * (NA_elements rt a : Int) % 2 ^ rt.NPY_BITSOF_LONG).toNat

/-- The call `memcpy(dest, src, n)` on buffers given by the byte at each offset. -/
def memcpy (dest src : Nat → Nat) (n : Nat) : Nat → Nat :=
  fun i => if i < n then src i else dest i

/-- The call `memset(dest, c, n)`. -/
def memset (dest : Nat → Nat) (c : Nat) (n : Nat) : Nat → Nat :=
  fun i => if i < n then c else dest i

/-- The function `NA_NewAll` (lines 240-263).  The argument `buffer` is NULL (`none`) or points
to memory, given by the byte at each offset. -/
def NA_NewAll (rt : Runtime) (w : World) (shape : List Int) (type : NumarrayType)
    (buffer : Option (Nat → Nat)) (byteoffset bytestride : Int)
    (byteorder aligned writeable : Int) : Outcome :=
  -- lines 245-248
  match NA_NewAllFromBuffer rt w shape type (some rt.Py_None) byteoffset bytestride
      byteorder aligned writeable with
  | (none, w1) => Outcome.returned none w1
  | (some result, w1) =>
    match w1.heap[result]? with
    | none => Outcome.undefined
    | some obj =>
      match obj.array with
      -- lines 250-253
      | none => Outcome.returned none (PyErr_Format w1 msgNewAll)
      | some arr =>
        match buffer with
        -- line 256
        | some buf =>
          Outcome.returned (some result)
            (w1.updArray result (fun r => { r with data := memcpy r.data buf (NA_NBYTES rt arr) }))
        -- line 258
        | none =>
          Outcome.returned (some result)
            (w1.updArray result (fun r => { r with data := memset r.data 0 (NA_NBYTES rt arr) }))

/-- The function `NA_NewArray` (lines 269-274). -/
def NA_NewArray (rt : Runtime) (w : World) (buffer : Option (Nat → Nat)) (type : NumarrayType)
    (shape : List Int) : Outcome :=
  NA_NewAll rt w shape type buffer 0 0 (NA_ByteOrder rt) 1 1

/-! ## Concrete runtimes, worlds and handles -/

/-- The result pointer of an outcome (NULL when the behaviour is undefined). -/
def Outcome.result : Outcome → Option Ptr
  | Outcome.returned r _ => r
  | Outcome.undefined => none

/-- The world an outcome ends in (`dflt` when the behaviour is undefined). -/
def Outcome.world (dflt : World) : Outcome → World
  | Outcome.returned _ w => w
  | Outcome.undefined => dflt

/-- A small table of descriptors: `int8` (1), `int32` (5) and `float64` (12). -/
def sampleDescr (t : Int) : Option PyArray_Descr :=
  if t = 1 then some { type_num := 1, elsize := 1, byteswapped := false }
  else if t = 5 then some { type_num := 5, elsize := 4, byteswapped := false }
  else if t = 12 then some { type_num := 12, elsize := 8, byteswapped := false }
  else none

/-- A little-endian host where `unsigned long` and `npy_intp` both have 64 bits, with memory for
every request; its coercion hands an array back as it is and refuses everything else. -/
def lp64 : Runtime where
  NPY_BITSOF_LONG := 64
  NPY_BITSOF_INTP := 64
  littleEndian := true
  Py_None := 0
  PyArray_DescrFromType := sampleDescr
  PyArray_DescrNewByteorder := fun d _ => some { d with byteswapped := !d.byteswapped }
  memoryAvailable := fun _ _ => true
  garbage := fun _ _ => 255
  newFlags := fun _ _ => NPY_CARRAY
  PyArray_CheckFromAny := fun w a _ _ _ _ =>
    match w.arrayAt a with
    | some _ => (some a, Py_INCREF w a)
    | none => (none, w.hostError)
  PyArray_FromBuffer := fun w _ _ _ _ => (none, w.hostError)
  PyArray_Newshape := fun w _ _ => (none, w.hostError)

/-- The same host with a 32-bit `unsigned long` and a 64-bit `npy_intp` (the LLP64 data model of
64-bit Windows). -/
def llp64 : Runtime := { lp64 with NPY_BITSOF_LONG := 32 }

/-- The same host as `lp64` with no memory left for a new array. -/
def noMemory : Runtime := { lp64 with memoryAvailable := fun _ _ => false }

/-- A handle of type `int32` and shape 2 x 3 with the given flags. -/
def int32Array (flags : Int) : PyArrayObject where
  data := fun _ => 7
  dimensions := [2, 3]
  base := none
  descr := { type_num := 5, elsize := 4, byteswapped := false }
  flags := flags

/-- A world with three objects: `None` at 0, a writable C array of type `int32` at 1 and a
read-only contiguous aligned array of type `int32` at 2. -/
def sampleWorld : World where
  heap := [{ ob_refcnt := 1, array := none },
           { ob_refcnt := 1, array := some (int32Array 0x0501) },
           { ob_refcnt := 1, array := some (int32Array 0x0101) }]
  err := none

/-- A world with the object `None` only. -/
def emptyWorld : World where
  heap := [{ ob_refcnt := 1, array := none }]
  err := none

/-- The world after `NA_OutputArray` has made a `float64` temporary for the array at pointer 1
of `sampleWorld`. -/
def sampleOut : World :=
  (NA_OutputArray lp64 sampleWorld 1 tFloat64 0).world sampleWorld

/-! ## Bit masks -/

/-- Two integers with the same bits are equal. -/
theorem int_eq_of_testBit_eq (m n : Int) (h : ∀ k, m.testBit k = n.testBit k) : m = n := by
  have key : ∀ a b : Nat, ¬ (∀ k, a.testBit k = !b.testBit k) := by
    intro a b hab
    have ha : a < 2 ^ (a + b) :=
      lt_of_le_of_lt (Nat.le_add_right a b) (Nat.lt_two_pow _)
    have hb : b < 2 ^ (a + b) :=
      lt_of_le_of_lt (Nat.le_add_left b a) (Nat.lt_two_pow _)
    have := hab (a + b)
    rw [Nat.testBit_lt_two_pow ha, Nat.testBit_lt_two_pow hb] at this
    exact absurd this (by decide)
  cases m with
  | ofNat a =>
    cases n with
    | ofNat b =>
      have : a = b := Nat.eq_of_testBit_eq (fun k => by simpa [Int.testBit] using h k)
      rw [this]
    | negSucc b =>
      exact absurd (fun k => by simpa [Int.testBit] using h k) (key a b)
  | negSucc a =>
    cases n with
    | ofNat b =>
      refine absurd (fun k => ?_) (key b a)
      have := h k
      simp only [Int.testBit] at this
      rw [← this]
    | negSucc b =>
      have : a = b := Nat.eq_of_testBit_eq (fun k => by simpa [Int.testBit] using h k)
      rw [this]

/-- No bit of zero is set. -/
theorem testBit_zero_int (k : Nat) : Int.testBit 0 k = false := by
  show Int.testBit (Int.ofNat 0) k = false
  simp [Int.testBit]

/-- A flag word contains the union of two masks exactly when it contains both. -/
theorem land_lor_eq_iff (f A B : Int) :
    Int.land f (Int.lor A B) = Int.lor A B ↔ Int.land f A = A ∧ Int.land f B = B := by
  constructor
  · intro h
    constructor <;>
    · apply int_eq_of_testBit_eq
      intro k
      have hk := congrArg (fun x => Int.testBit x k) h
      simp only [Int.testBit_land, Int.testBit_lor] at hk ⊢
      revert hk
      cases Int.testBit f k <;> cases Int.testBit A k <;> cases Int.testBit B k <;> simp
  · rintro ⟨hA, hB⟩
    apply int_eq_of_testBit_eq
    intro k
    have hkA := congrArg (fun x => Int.testBit x k) hA
    have hkB := congrArg (fun x => Int.testBit x k) hB
    simp only [Int.testBit_land, Int.testBit_lor] at hkA hkB ⊢
    revert hkA hkB
    cases Int.testBit f k <;> cases Int.testBit A k <;> cases Int.testBit B k <;> simp

/-- After a mask is cleared no bit of it is left. -/
theorem land_lnot_clear (f W : Int) : Int.land (Int.land f (Int.lnot W)) W = 0 := by
  apply int_eq_of_testBit_eq
  intro k
  simp only [Int.testBit_land, Int.testBit_lnot, testBit_zero_int]
  cases Int.testBit f k <;> cases Int.testBit W k <;> simp

/-- After a mask is cleared every disjoint mask reads as before. -/
theorem land_lnot_frame (f W m : Int) (hm : Int.land m W = 0) :
    Int.land (Int.land f (Int.lnot W)) m = Int.land f m := by
  apply int_eq_of_testBit_eq
  intro k
  have hk := congrArg (fun x => Int.testBit x k) hm
  simp only [Int.testBit_land, Int.testBit_lnot, testBit_zero_int] at hk ⊢
  revert hk
  cases Int.testBit f k <;> cases Int.testBit W k <;> cases Int.testBit m k <;> simp

/-- After a mask is set the word contains it. -/
theorem land_lor_self (f W : Int) : Int.land (Int.lor f W) W = W := by
  apply int_eq_of_testBit_eq
  intro k
  simp only [Int.testBit_land, Int.testBit_lor]
  cases Int.testBit f k <;> cases Int.testBit W k <;> simp

/-- The flag `NPY_WRITEABLE` is bit 10 and no other bit. -/
theorem testBit_WRITEABLE (k : Nat) (hk : k ≠ 10) : Int.testBit NPY_WRITEABLE k = false := by
  show Int.testBit (Int.ofNat 1024) k = false
  simp only [Int.testBit]
  have h : (1024 : Nat) = 2 ^ 10 := by norm_num
  rw [h, Nat.testBit_two_pow]
  simp [Ne.symm hk]

/-- A C array is contiguous, aligned, writable and not byte-swapped, and conversely. -/
theorem ISCARRAY_iff (a : PyArrayObject) :
    PyArray_ISCARRAY a = true ↔
      (PyArray_ISCONTIGUOUS a = true ∧ PyArray_ISALIGNED a = true ∧
        PyArray_ISWRITEABLE a = true ∧ PyArray_ISBYTESWAPPED a = false) := by
  simp only [PyArray_ISCARRAY, PyArray_ISCONTIGUOUS, PyArray_ISALIGNED, PyArray_ISWRITEABLE,
    PyArray_ISBYTESWAPPED, PyArray_CHKFLAGS, NPY_CARRAY, NPY_BEHAVED, Bool.and_eq_true,
    decide_eq_true_eq, land_lor_eq_iff, Bool.not_eq_false']
  tauto

/-! ## The satisfiability check -/

/-- Claim C10: when the requirement mask has no force-copy flag, `satisfies` is non-zero exactly
when the element type matches (or the tag is `tAny`) and the handle has the property of each of
the four flags present in the mask: not byte-swapped for `NPY_NOTSWAPPED`, aligned for
`NPY_ALIGNED`, contiguous for `NPY_CONTIGUOUS`, writable for `NPY_WRITEABLE`; and
`PyArray_ISCARRAY`, the shortcut, means contiguous, aligned, writable and not byte-swapped. -/
theorem satisfies_iff_requirements (a : PyArrayObject) (r : Int) (t : NumarrayType)
    (hcopy : Int.land r NPY_ENSURECOPY = 0) :
    (satisfies a r t ≠ 0 ↔
      ((a.descr.type_num = t ∨ t = tAny) ∧
       (Int.land r NPY_NOTSWAPPED ≠ 0 → PyArray_ISBYTESWAPPED a = false) ∧
       (Int.land r NPY_ALIGNED ≠ 0 → PyArray_ISALIGNED a = true) ∧
       (Int.land r NPY_CONTIGUOUS ≠ 0 → PyArray_ISCONTIGUOUS a = true) ∧
       (Int.land r NPY_WRITEABLE ≠ 0 → PyArray_ISWRITEABLE a = true))) ∧
    (PyArray_ISCARRAY a = true ↔
      (PyArray_ISCONTIGUOUS a = true ∧ PyArray_ISALIGNED a = true ∧
        PyArray_ISWRITEABLE a = true ∧ PyArray_ISBYTESWAPPED a = false)) := by
  refine ⟨?_, ISCARRAY_iff a⟩
  unfold satisfies
  by_cases hc : PyArray_ISCARRAY a = true
  · obtain ⟨h1, h2, h3, h4⟩ := (ISCARRAY_iff a).1 hc
    simp only [hc, if_true, h1, h2, h3, h4]
    by_cases ht : a.descr.type_num = t ∨ t = tAny <;> simp [ht]
  · simp only [hc, if_false, hcopy]
    by_cases ht : a.descr.type_num = t ∨ t = tAny <;>
    by_cases h1 : PyArray_ISBYTESWAPPED a = true <;>
    by_cases h2 : PyArray_ISALIGNED a = true <;>
    by_cases h3 : PyArray_ISCONTIGUOUS a = true <;>
    by_cases h4 : PyArray_ISWRITEABLE a = true <;>
    by_cases r1 : Int.land r NPY_NOTSWAPPED = 0 <;>
    by_cases r2 : Int.land r NPY_ALIGNED = 0 <;>
    by_cases r3 : Int.land r NPY_CONTIGUOUS = 0 <;>
    by_cases r4 : Int.land r NPY_WRITEABLE = 0 <;>
    simp [ht, h1, h2, h3, h4, r1, r2, r3, r4]

/-- Witness of `satisfies_iff_requirements`: a read-only array asked to be writable. -/
theorem satisfies_iff_requirements_witness :
    (satisfies (int32Array 0x0101) NPY_WRITEABLE 5 ≠ 0 ↔
      (((int32Array 0x0101).descr.type_num = 5 ∨ (5 : NumarrayType) = tAny) ∧
       (Int.land NPY_WRITEABLE NPY_NOTSWAPPED ≠ 0 →
          PyArray_ISBYTESWAPPED (int32Array 0x0101) = false) ∧
       (Int.land NPY_WRITEABLE NPY_ALIGNED ≠ 0 → PyArray_ISALIGNED (int32Array 0x0101) = true) ∧
       (Int.land NPY_WRITEABLE NPY_CONTIGUOUS ≠ 0 →
          PyArray_ISCONTIGUOUS (int32Array 0x0101) = true) ∧
       (Int.land NPY_WRITEABLE NPY_WRITEABLE ≠ 0 →
          PyArray_ISWRITEABLE (int32Array 0x0101) = true))) ∧
    (PyArray_ISCARRAY (int32Array 0x0101) = true ↔
      (PyArray_ISCONTIGUOUS (int32Array 0x0101) = true ∧
        PyArray_ISALIGNED (int32Array 0x0101) = true ∧
        PyArray_ISWRITEABLE (int32Array 0x0101) = true ∧
        PyArray_ISBYTESWAPPED (int32Array 0x0101) = false)) :=
  satisfies_iff_requirements (int32Array 0x0101) NPY_WRITEABLE 5 (by decide)

/-- Claim C4, counterexample: a C array of type `int32` satisfies the tag `int32` under the mask
that is the force-copy flag alone: the flag is set in the mask and `satisfies` returns 1. -/
theorem satisfies_forcecopy_carray :
    Int.land NPY_ENSURECOPY NPY_ENSURECOPY ≠ 0 ∧
      satisfies (int32Array 0x0501) NPY_ENSURECOPY 5 = 1 := by
  decide

/-- Claim C4, amended: when the mask has the force-copy flag, `satisfies` returns 0 for every
handle that is not a C array, whatever its flags and type; for a C array the flag is not looked
at and `satisfies` returns 1 exactly when the type matches or the tag is `tAny`. -/
theorem satisfies_forcecopy (a : PyArrayObject) (r : Int) (t : NumarrayType)
    (hcopy : Int.land r NPY_ENSURECOPY ≠ 0) :
    (PyArray_ISCARRAY a = false → satisfies a r t = 0) ∧
    (PyArray_ISCARRAY a = true →
      satisfies a r t = if a.descr.type_num = t ∨ t = tAny then 1 else 0) := by
  constructor
  · intro hc
    unfold satisfies
    simp only [hc, Bool.false_eq_true, if_false, hcopy, ne_eq, not_false_eq_true, if_true]
    split_ifs <;> rfl
  · intro hc
    unfold satisfies
    simp only [hc, if_true]

/-- Witness of `satisfies_forcecopy`: a read-only array under the force-copy mask. -/
theorem satisfies_forcecopy_witness :
    (PyArray_ISCARRAY (int32Array 0x0101) = false →
      satisfies (int32Array 0x0101) NPY_ENSURECOPY 5 = 0) ∧
    (PyArray_ISCARRAY (int32Array 0x0101) = true →
      satisfies (int32Array 0x0101) NPY_ENSURECOPY 5 =
        if (int32Array 0x0101).descr.type_num = 5 ∨ (5 : NumarrayType) = tAny then 1 else 0) :=
  satisfies_forcecopy (int32Array 0x0101) NPY_ENSURECOPY 5 (by decide)

/-! ## The heap -/

/-- An array at a pointer is the array of a live object. -/
theorem arrayAt_eq_some (w : World) (p : Ptr) (arr : PyArrayObject) :
    w.arrayAt p = some arr ↔ ∃ obj, w.heap[p]? = some obj ∧ obj.array = some arr := by
  simp [World.arrayAt, Option.bind_eq_some]

/-- The heap after an object has been replaced. -/
theorem heap_updObject (w : World) (p q : Ptr) (f : PyObject → PyObject) :
    (w.updObject p f).heap[q]? = if q = p then (w.heap[p]?).map f else w.heap[q]? := by
  unfold World.updObject
  cases hp : w.heap[p]? with
  | none =>
    by_cases hq : q = p
    · subst hq; simp [hp]
    · simp [hq]
  | some o =>
    have hlt : p < w.heap.length := by
      by_contra hge
      rw [List.getElem?_eq_none (Nat.le_of_not_lt hge)] at hp
      exact absurd hp (by simp)
    by_cases hq : q = p
    · subst hq; simp [List.getElem?_set, hlt]
    · have hq2 : p ≠ q := fun h => hq h.symm
      simp [List.getElem?_set, hq, hq2]

/-- Replacing an object keeps the error indicator. -/
theorem err_updObject (w : World) (p : Ptr) (f : PyObject → PyObject) :
    (w.updObject p f).err = w.err := by
  unfold World.updObject
  cases w.heap[p]? <;> rfl

/-- The arrays of the heap after an assignment to the fields of one of them. -/
theorem arrayAt_updArray (w : World) (p q : Ptr) (f : PyArrayObject → PyArrayObject) :
    (w.updArray p f).arrayAt q = if q = p then (w.arrayAt p).map f else w.arrayAt q := by
  unfold World.updArray World.arrayAt
  rw [heap_updObject]
  by_cases hq : q = p
  · subst hq
    cases w.heap[q]? <;> simp
  · simp [hq]

/-- A change of a reference count changes no array. -/
theorem arrayAt_INCREF (w : World) (p q : Ptr) : (Py_INCREF w p).arrayAt q = w.arrayAt q := by
  unfold Py_INCREF World.arrayAt
  rw [heap_updObject]
  by_cases hq : q = p
  · subst hq
    cases w.heap[q]? <;> simp
  · simp [hq]

/-- A change of a reference count changes no array. -/
theorem arrayAt_DECREF (w : World) (p q : Ptr) : (Py_DECREF w p).arrayAt q = w.arrayAt q := by
  unfold Py_DECREF World.arrayAt
  rw [heap_updObject]
  by_cases hq : q = p
  · subst hq
    cases w.heap[q]? <;> simp
  · simp [hq]

/-- A successful allocation returns the first pointer past the heap and appends the new array;
the request then met every condition of the allocator. -/
theorem PyArray_NewFromDescr_some (rt : Runtime) (w : World) (d : PyArray_Descr)
    (dims : List Int) (ret : Ptr) (h : (PyArray_NewFromDescr rt w d dims).1 = some ret) :
    ret = w.heap.length ∧
    PyArray_NewFromDescr rt w d dims =
      (some w.heap.length, { w with heap := w.heap ++ [newArray rt w d dims] }) ∧
    (∀ x ∈ dims, 0 ≤ x) ∧ 0 ≤ d.elsize ∧ d.elsize * dims.prod < 2 ^ (rt.NPY_BITSOF_INTP - 1) := by
  unfold PyArray_NewFromDescr at h ⊢
  split_ifs at h ⊢ with hc
  simp only [Option.some.injEq] at h
  exact ⟨h.symm, rfl, hc.2.1, hc.2.2.1, hc.2.2.2.1⟩

/-- A successful `PyArray_Empty` allocated with the given descriptor, or with the default one
when none was given. -/
theorem PyArray_Empty_some (rt : Runtime) (w : World) (dims : List Int)
    (type : Option PyArray_Descr) (ret : Ptr)
    (h : (PyArray_Empty rt w dims type).1 = some ret) :
    ∃ d, (type = some d ∨ (type = none ∧ rt.PyArray_DescrFromType PyArray_DEFAULT = some d)) ∧
      ret = w.heap.length ∧
      PyArray_Empty rt w dims type =
        (some w.heap.length, { w with heap := w.heap ++ [newArray rt w d dims] }) := by
  unfold PyArray_Empty at h ⊢
  cases type with
  | some d =>
    obtain ⟨h1, h2, _⟩ := PyArray_NewFromDescr_some rt w d dims ret h
    exact ⟨d, Or.inl rfl, h1, h2⟩
  | none =>
    cases hd : rt.PyArray_DescrFromType PyArray_DEFAULT with
    | none =>
      rw [hd] at h
      exact absurd h (by simp)
    | some d =>
      rw [hd] at h
      obtain ⟨h1, h2, _⟩ := PyArray_NewFromDescr_some rt w d dims ret h
      exact ⟨d, Or.inr ⟨rfl, rfl⟩, h1, h2⟩

/-- The arrays of the heap after an object has been appended. -/
theorem arrayAt_append (w : World) (o : PyObject) (q : Ptr) :
    World.arrayAt { w with heap := w.heap ++ [o] } q =
      if q = w.heap.length then o.array else w.arrayAt q := by
  unfold World.arrayAt
  by_cases hq : q = w.heap.length
  · subst hq
    simp
  · simp only [hq, if_false]
    rcases Nat.lt_or_gt_of_ne hq with hlt | hgt
    · rw [List.getElem?_append_left hlt]
    · rw [List.getElem?_eq_none (by simp; omega), List.getElem?_eq_none (by omega)]

/-- The temporary path of `NA_OutputArray` (lines 118-131), when the allocation succeeds: the
pointer returned is the first past the old heap, the temporary is the new array with the
copy-back flag added and the source as base, and the source has lost its writable flag. -/
theorem NA_OutputArray_temporary_path (rt : Runtime) (w : World) (a : Ptr) (t : NumarrayType)
    (r : Int) (arr : PyArrayObject) (ret : Ptr)
    (hsrc : w.arrayAt a = some arr) (hw : PyArray_ISWRITEABLE arr = true)
    (hsat : satisfies arr r t = 0)
    (halloc : (PyArray_Empty rt w arr.dimensions
      (if t = tAny then some arr.descr else rt.PyArray_DescrFromType t)).1 = some ret) :
    ∃ d w',
      ((if t = tAny then some arr.descr else rt.PyArray_DescrFromType t) = some d ∨
        ((if t = tAny then some arr.descr else rt.PyArray_DescrFromType t) = none ∧
          rt.PyArray_DescrFromType PyArray_DEFAULT = some d)) ∧
      ret = w.heap.length ∧ ret ≠ a ∧
      NA_OutputArray rt w a t r = Outcome.returned (some ret) w' ∧
      w'.arrayAt ret = some { data := rt.garbage w
                              dimensions := arr.dimensions
                              base := some a
                              descr := d
                              flags := Int.lor (rt.newFlags d arr.dimensions) NPY_UPDATEIFCOPY } ∧
      w'.arrayAt a = some { arr with flags := Int.land arr.flags (Int.lnot NPY_WRITEABLE) } := by
  obtain ⟨obj, hobj, harr⟩ := (arrayAt_eq_some w a arr).1 hsrc
  obtain ⟨d, hd, hret, hE⟩ := PyArray_Empty_some rt w arr.dimensions _ ret halloc
  have hlt : a < w.heap.length := by
    by_contra hge
    rw [List.getElem?_eq_none (Nat.le_of_not_lt hge)] at hobj
    exact absurd hobj (by simp)
  have hne2 : a ≠ w.heap.length := Nat.ne_of_lt hlt
  have hne : ret ≠ a := by rw [hret]; exact fun h => hne2 h.symm
  refine ⟨d, Py_INCREF
    (((World.updArray { w with heap := w.heap ++ [newArray rt w d arr.dimensions] } ret
        (fun x => { x with flags := Int.lor x.flags NPY_UPDATEIFCOPY })).updArray ret
        (fun x => { x with base := some a })).updArray a
        (fun s => { s with flags := Int.land s.flags (Int.lnot NPY_WRITEABLE) })) a,
    hd, hret, hne, ?_, ?_, ?_⟩
  · unfold NA_OutputArray
    simp only [hobj, harr, hw, hsat, not_true_eq_false, if_false, ne_eq, hE, hret]
  · subst hret
    simp only [arrayAt_INCREF, arrayAt_updArray, arrayAt_append, hne, hne2, if_true, if_false,
      newArray, Option.map_some']
  · subst hret
    simp only [arrayAt_INCREF, arrayAt_updArray, arrayAt_append, hne, hne2, if_true, if_false,
      hsrc, Option.map_some', hne.symm]

/-! ## `NA_OutputArray` -/

/-- The two ways `NA_OutputArray` ends without a temporary, for a writable array source: it hands
the source back when `satisfies` is non-zero, and its behaviour is undefined when `satisfies` is
zero and the allocation fails (line 127 dereferences the NULL result of `PyArray_Empty`). -/
theorem NA_OutputArray_no_temporary (rt : Runtime) (w : World) (a : Ptr) (t : NumarrayType)
    (r : Int) (arr : PyArrayObject)
    (hsrc : w.arrayAt a = some arr) (hw : PyArray_ISWRITEABLE arr = true) :
    (satisfies arr r t ≠ 0 →
      NA_OutputArray rt w a t r = Outcome.returned (some a) (Py_INCREF w a)) ∧
    (satisfies arr r t = 0 →
      (PyArray_Empty rt w arr.dimensions
        (if t = tAny then some arr.descr else rt.PyArray_DescrFromType t)).1 = none →
      NA_OutputArray rt w a t r = Outcome.undefined) := by
  obtain ⟨obj, hobj, harr⟩ := (arrayAt_eq_some w a arr).1 hsrc
  constructor
  · intro hsat
    unfold NA_OutputArray
    simp only [hobj, harr, hw, not_true_eq_false, if_false, ne_eq, hsat, not_false_eq_true,
      if_true]
  · intro hsat hnone
    unfold NA_OutputArray
    simp only [hobj, harr, hw, hsat, not_true_eq_false, if_false, ne_eq]
    cases hE : PyArray_Empty rt w arr.dimensions
        (if t = tAny then some arr.descr else rt.PyArray_DescrFromType t) with
    | mk x w1 =>
      rw [hE] at hnone
      simp only at hnone
      subst hnone
      rfl

/-- Claim C1, the failing input: on a host with no memory left, for the writable `int32` C array
at pointer 1 and the tag `float64`, `satisfies` is zero, `PyArray_Empty` returns NULL, and
`NA_OutputArray` returns no handle at all: line 127 dereferences the NULL result (the outcome is
undefined).  On the same host the sibling `NA_NewArray`, whose path tests its results for NULL
(lines 199, 205, 249), returns NULL with the error of the runtime set. -/
theorem NA_OutputArray_allocation_failure :
    sampleWorld.arrayAt 1 = some (int32Array 0x0501) ∧
    PyArray_ISWRITEABLE (int32Array 0x0501) = true ∧
    satisfies (int32Array 0x0501) 0 tFloat64 = 0 ∧
    (PyArray_Empty noMemory sampleWorld (int32Array 0x0501).dimensions
      (noMemory.PyArray_DescrFromType tFloat64)).1 = none ∧
    NA_OutputArray noMemory sampleWorld 1 tFloat64 0 = Outcome.undefined ∧
    (∃ w', NA_NewArray noMemory sampleWorld none tFloat64 [2, 3] = Outcome.returned none w' ∧
      w'.err = some PyErr.host) :=
  ⟨rfl, by decide, by decide, by decide, rfl, _, rfl, rfl⟩

/-- The identity of the handle `NA_OutputArray` returns for a writable array source: it is the
source pointer itself if and only if `satisfies` is non-zero; and when `satisfies` is zero and
the allocation by `PyArray_Empty` succeeds, it is the newly allocated handle: a pointer that
differs from the source, pointed to no object before the call and points to an array after
it. -/
theorem NA_OutputArray_identity (rt : Runtime) (w : World) (a : Ptr) (t : NumarrayType)
    (r : Int) (arr : PyArrayObject)
    (hsrc : w.arrayAt a = some arr) (hw : PyArray_ISWRITEABLE arr = true) :
    ((∃ w', NA_OutputArray rt w a t r = Outcome.returned (some a) w') ↔ satisfies arr r t ≠ 0) ∧
    (satisfies arr r t = 0 → ∀ ret,
      (PyArray_Empty rt w arr.dimensions
        (if t = tAny then some arr.descr else rt.PyArray_DescrFromType t)).1 = some ret →
      ∃ w', NA_OutputArray rt w a t r = Outcome.returned (some ret) w' ∧ ret ≠ a ∧
        w.heap[ret]? = none ∧ (w'.arrayAt ret).isSome = true) := by
  have hno := NA_OutputArray_no_temporary rt w a t r arr hsrc hw
  constructor
  · constructor
    · rintro ⟨w', hret⟩ hsat
      cases hE : (PyArray_Empty rt w arr.dimensions
          (if t = tAny then some arr.descr else rt.PyArray_DescrFromType t)).1 with
      | none =>
        rw [hno.2 hsat hE] at hret
        exact Outcome.noConfusion hret
      | some ret =>
        obtain ⟨d, w2, _, _, hne, hout, _, _⟩ :=
          NA_OutputArray_temporary_path rt w a t r arr ret hsrc hw hsat hE
        rw [hout] at hret
        simp only [Outcome.returned.injEq, Option.some.injEq] at hret
        exact hne hret.1
    · intro hsat
      exact ⟨_, hno.1 hsat⟩
  · intro hsat ret halloc
    obtain ⟨d, w2, _, hlen, hne, hout, htmp, _⟩ :=
      NA_OutputArray_temporary_path rt w a t r arr ret hsrc hw hsat halloc
    refine ⟨w2, hout, hne, ?_, ?_⟩
    · rw [hlen]
      exact List.getElem?_eq_none (Nat.le_refl _)
    · rw [htmp]
      rfl

/-- Witness of `NA_OutputArray_identity`: the writable `int32` C array at pointer 1 asked for as
`float64`; the temporary is the new object at pointer 3. -/
theorem NA_OutputArray_identity_witness :
    ∃ w', NA_OutputArray lp64 sampleWorld 1 tFloat64 0 = Outcome.returned (some 3) w' ∧
      (3 : Ptr) ≠ 1 ∧ sampleWorld.heap[(3 : Ptr)]? = none ∧ (w'.arrayAt 3).isSome = true :=
  (NA_OutputArray_identity lp64 sampleWorld 1 tFloat64 0 (int32Array 0x0501) rfl
    (by decide)).2 (by decide) 3 (by decide)

/-- Claim C2: for a source that is not an array, or an array whose writable flag is clear,
`NA_OutputArray` returns NULL with the type error of line 110 set, in a world whose heap is the
heap before the call: nothing was allocated and no flag of the source (or of anything else) was
changed. -/
theorem NA_OutputArray_rejects (rt : Runtime) (w : World) (a : Ptr) (t : NumarrayType)
    (r : Int) (obj : PyObject) (hobj : w.heap[a]? = some obj)
    (hbad : obj.array = none ∨ ∃ arr, obj.array = some arr ∧ PyArray_ISWRITEABLE arr = false) :
    NA_OutputArray rt w a t r =
      Outcome.returned none { heap := w.heap, err := some (PyErr.TypeError msgOutputArray) } := by
  unfold NA_OutputArray
  rcases hbad with hnone | ⟨arr, harr, hw⟩
  · simp only [hobj, hnone]
    rfl
  · simp only [hobj, harr, hw, Bool.false_eq_true, not_false_eq_true, if_true]
    rfl

/-- Witness of `NA_OutputArray_rejects`: the read-only array at pointer 2. -/
theorem NA_OutputArray_rejects_witness :
    NA_OutputArray lp64 sampleWorld 2 tAny 0 =
      Outcome.returned none
        { heap := sampleWorld.heap, err := some (PyErr.TypeError msgOutputArray) } :=
  NA_OutputArray_rejects lp64 sampleWorld 2 tAny 0
    { ob_refcnt := 1, array := some (int32Array 0x0101) } rfl
    (Or.inr ⟨int32Array 0x0101, rfl, by decide⟩)

/-- The descriptor of the temporary: the descriptor of the source for the tag `tAny`, and a
descriptor of type number `t` for a tag `t` the runtime has such a descriptor for. -/
theorem temporary_descr (rt : Runtime) (t : NumarrayType) (arr : PyArrayObject)
    (d : PyArray_Descr)
    (htag : t = tAny ∨ ∃ d, rt.PyArray_DescrFromType t = some d ∧ d.type_num = t)
    (hd : (if t = tAny then some arr.descr else rt.PyArray_DescrFromType t) = some d ∨
      ((if t = tAny then some arr.descr else rt.PyArray_DescrFromType t) = none ∧
        rt.PyArray_DescrFromType PyArray_DEFAULT = some d)) :
    d.type_num = (if t = tAny then arr.descr.type_num else t) ∧ (t = tAny → d = arr.descr) := by
  by_cases ht : t = tAny
  · simp only [ht, if_true] at hd ⊢
    rcases hd with hd | ⟨hd, _⟩
    · rw [← Option.some.inj hd]
      exact ⟨rfl, fun _ => rfl⟩
    · exact absurd hd (by simp)
  · simp only [ht, if_false] at hd ⊢
    rcases htag with htag | ⟨d2, hd2, hnum⟩
    · exact absurd htag ht
    · rw [hd2] at hd
      rcases hd with hd | ⟨hd, _⟩
      · rw [← Option.some.inj hd]
        exact ⟨hnum, fun h => h.elim⟩
      · exact absurd hd (by simp)

/-- Claim C7, the failing input: for the writable `int32` C array at pointer 1 and the tag
`tMaxType` (line 60), for which the runtime has no descriptor, `satisfies` is zero, line 123 gets
NULL from `PyArray_DescrFromType` and hands it untested to `PyArray_Empty`, the allocation
succeeds, and the temporary returned has element type 12 (`float64`, the default type), not the
requested tag 21.  The sibling path of `NA_NewArray` tests the descriptor (line 199) and returns
NULL for the same tag. -/
theorem NA_OutputArray_tag_without_descriptor :
    sampleWorld.arrayAt 1 = some (int32Array 0x0501) ∧
    PyArray_ISWRITEABLE (int32Array 0x0501) = true ∧
    lp64.PyArray_DescrFromType tMaxType = none ∧
    satisfies (int32Array 0x0501) 0 tMaxType = 0 ∧
    (∃ w' tmp, NA_OutputArray lp64 sampleWorld 1 tMaxType 0 = Outcome.returned (some 3) w' ∧
      w'.arrayAt 3 = some tmp ∧ tmp.dimensions = (int32Array 0x0501).dimensions ∧
      PyArray_CHKFLAGS tmp NPY_UPDATEIFCOPY = true ∧ tmp.base = some 1 ∧
      tmp.descr.type_num = 12 ∧ tMaxType = 21) ∧
    (∃ w', NA_NewArray lp64 sampleWorld none tMaxType [2, 3] = Outcome.returned none w' ∧
      w'.err = some PyErr.host) :=
  ⟨rfl, by decide, by decide, by decide,
    ⟨_, _, rfl, rfl, rfl, by decide, rfl, rfl, rfl⟩, ⟨_, rfl, rfl⟩⟩

/-- The temporary of `NA_OutputArray` for a tag that denotes an element type: for a writable
array source, a type tag `t` that is `tAny` or a tag for which the runtime has a descriptor of
that type number, and a mask with `satisfies` equal to 0, when the allocation succeeds the
handle `NA_OutputArray` returns has the rank and the dimensions of the source, the element type
`t` (the type of the source when `t` is `tAny`), the copy-back flag `NPY_UPDATEIFCOPY` set, and
the source as its base. -/
theorem NA_OutputArray_temporary (rt : Runtime) (w : World) (a : Ptr) (t : NumarrayType)
    (r : Int) (arr : PyArrayObject) (ret : Ptr)
    (hsrc : w.arrayAt a = some arr) (hw : PyArray_ISWRITEABLE arr = true)
    (hsat : satisfies arr r t = 0)
    (htag : t = tAny ∨ ∃ d, rt.PyArray_DescrFromType t = some d ∧ d.type_num = t)
    (halloc : (PyArray_Empty rt w arr.dimensions
      (if t = tAny then some arr.descr else rt.PyArray_DescrFromType t)).1 = some ret) :
    ∃ w' tmp, NA_OutputArray rt w a t r = Outcome.returned (some ret) w' ∧
      w'.arrayAt ret = some tmp ∧
      tmp.nd = arr.nd ∧ tmp.dimensions = arr.dimensions ∧
      tmp.descr.type_num = (if t = tAny then arr.descr.type_num else t) ∧
      PyArray_CHKFLAGS tmp NPY_UPDATEIFCOPY = true ∧
      tmp.base = some a := by
  obtain ⟨d, w2, hd, _, _, hout, htmp, _⟩ :=
    NA_OutputArray_temporary_path rt w a t r arr ret hsrc hw hsat halloc
  refine ⟨w2, _, hout, htmp, rfl, rfl, ?_, ?_, rfl⟩
  · exact (temporary_descr rt t arr d htag hd).1
  · simp only [PyArray_CHKFLAGS, decide_eq_true_eq]
    exact land_lor_self _ _

/-- Witness of `NA_OutputArray_temporary`: the writable `int32` C array at pointer 1 asked for as
`float64`. -/
theorem NA_OutputArray_temporary_witness :
    ∃ w' tmp, NA_OutputArray lp64 sampleWorld 1 tFloat64 0 = Outcome.returned (some 3) w' ∧
      w'.arrayAt 3 = some tmp ∧
      tmp.nd = (int32Array 0x0501).nd ∧ tmp.dimensions = (int32Array 0x0501).dimensions ∧
      tmp.descr.type_num =
        (if tFloat64 = tAny then (int32Array 0x0501).descr.type_num else tFloat64) ∧
      PyArray_CHKFLAGS tmp NPY_UPDATEIFCOPY = true ∧
      tmp.base = some 1 :=
  NA_OutputArray_temporary lp64 sampleWorld 1 tFloat64 0 (int32Array 0x0501) 3 rfl
    (by decide) (by decide) (Or.inr ⟨_, rfl, rfl⟩) (by decide)

/-- Claim C8: for a writable array source, when `NA_OutputArray` returns a copy-back temporary (a
handle other than the source), afterwards the writable flag of the source is clear and every
other flag is unchanged: every flag mask that does not contain `NPY_WRITEABLE` reads on the
source as before, and so does every bit other than bit 10, the bit of `NPY_WRITEABLE`; when it
returns the source itself, the flag word of the source is unchanged. -/
theorem NA_OutputArray_source_flags (rt : Runtime) (w : World) (a : Ptr) (t : NumarrayType)
    (r : Int) (arr : PyArrayObject) (p : Ptr) (w' : World)
    (hsrc : w.arrayAt a = some arr) (hw : PyArray_ISWRITEABLE arr = true)
    (hret : NA_OutputArray rt w a t r = Outcome.returned (some p) w') :
    ∃ src, w'.arrayAt a = some src ∧
      (p ≠ a → PyArray_ISWRITEABLE src = false ∧
        (∀ m, Int.land m NPY_WRITEABLE = 0 → Int.land src.flags m = Int.land arr.flags m) ∧
        (∀ k, k ≠ 10 → src.flags.testBit k = arr.flags.testBit k)) ∧
      (p = a → src.flags = arr.flags) := by
  have hno := NA_OutputArray_no_temporary rt w a t r arr hsrc hw
  by_cases hsat : satisfies arr r t = 0
  · cases hE : (PyArray_Empty rt w arr.dimensions
        (if t = tAny then some arr.descr else rt.PyArray_DescrFromType t)).1 with
    | none =>
      rw [hno.2 hsat hE] at hret
      exact Outcome.noConfusion hret
    | some ret =>
      obtain ⟨d, w2, _, _, hne, hout, _, hsrc2⟩ :=
        NA_OutputArray_temporary_path rt w a t r arr ret hsrc hw hsat hE
      rw [hout] at hret
      simp only [Outcome.returned.injEq, Option.some.injEq] at hret
      obtain ⟨hp, hw2⟩ := hret
      subst hp hw2
      refine ⟨_, hsrc2, fun _ => ⟨?_, fun m hm => ?_, fun k hk => ?_⟩, fun h => absurd h hne⟩
      · simp only [PyArray_ISWRITEABLE, PyArray_CHKFLAGS, decide_eq_false_iff_not]
        rw [land_lnot_clear]
        decide
      · exact land_lnot_frame _ _ _ hm
      · show Int.testBit (Int.land arr.flags (Int.lnot NPY_WRITEABLE)) k = _
        rw [Int.testBit_land, Int.testBit_lnot, testBit_WRITEABLE k hk]
        simp
  · rw [hno.1 hsat] at hret
    simp only [Outcome.returned.injEq, Option.some.injEq] at hret
    obtain ⟨hp, hw2⟩ := hret
    subst hp hw2
    exact ⟨arr, by rw [arrayAt_INCREF]; exact hsrc, fun h => absurd rfl h, fun _ => rfl⟩

/-- Witness of `NA_OutputArray_source_flags`: the temporary made for the array at pointer 1. -/
theorem NA_OutputArray_source_flags_witness :
    ∃ src, sampleOut.arrayAt 1 = some src ∧
      ((3 : Ptr) ≠ 1 → PyArray_ISWRITEABLE src = false ∧
        (∀ m, Int.land m NPY_WRITEABLE = 0 →
          Int.land src.flags m = Int.land (int32Array 0x0501).flags m) ∧
        (∀ k, k ≠ 10 → src.flags.testBit k = (int32Array 0x0501).flags.testBit k)) ∧
      ((3 : Ptr) = 1 → src.flags = (int32Array 0x0501).flags) :=
  NA_OutputArray_source_flags lp64 sampleWorld 1 tFloat64 0 (int32Array 0x0501) 3 sampleOut
    rfl (by decide) rfl

/-- Claim C9, counterexample: the copy-back temporary `NA_OutputArray` makes for the `int32`
array at pointer 1 under the tag `float64` has element type 12 (`float64`), not the type 5
(`int32`) of its source. -/
theorem NA_OutputArray_temporary_type_differs :
    ∃ src tmp, sampleWorld.arrayAt 1 = some src ∧ PyArray_ISWRITEABLE src = true ∧
      NA_OutputArray lp64 sampleWorld 1 tFloat64 0 = Outcome.returned (some 3) sampleOut ∧
      sampleOut.arrayAt 3 = some tmp ∧
      PyArray_CHKFLAGS tmp NPY_UPDATEIFCOPY = true ∧ tmp.base = some 1 ∧
      src.descr.type_num = 5 ∧ tmp.descr.type_num = 12 :=
  ⟨_, _, rfl, by decide, rfl, rfl, by decide, rfl, rfl, rfl⟩

/-- Claim C9, amended: every copy-back temporary `NA_OutputArray` produces (a returned handle
other than the source) for a writable array source, any requirement mask, and a type tag `t`
that is `tAny` or a tag for which `PyArray_DescrFromType` returns a descriptor of type number
`t`, has at creation the shape and the element count of its source, and its element type is the
requested type: the very descriptor of the source when `t` is `tAny`, and the type number `t`
otherwise, which is the element type of the source when `t` is the type number of the source.
Nothing is stated for a tag without such a descriptor. -/
theorem NA_OutputArray_temporary_shape (rt : Runtime) (w : World) (a : Ptr) (t : NumarrayType)
    (r : Int) (arr : PyArrayObject) (p : Ptr) (w' : World)
    (hsrc : w.arrayAt a = some arr) (hw : PyArray_ISWRITEABLE arr = true)
    (htag : t = tAny ∨ ∃ d, rt.PyArray_DescrFromType t = some d ∧ d.type_num = t)
    (hret : NA_OutputArray rt w a t r = Outcome.returned (some p) w') (hp : p ≠ a) :
    ∃ tmp, w'.arrayAt p = some tmp ∧
      tmp.dimensions = arr.dimensions ∧
      NA_elements rt tmp = NA_elements rt arr ∧
      (t ≠ tAny → tmp.descr.type_num = t) ∧
      (t = tAny → tmp.descr = arr.descr) ∧
      (t = arr.descr.type_num → tmp.descr.type_num = arr.descr.type_num) := by
  have hno := NA_OutputArray_no_temporary rt w a t r arr hsrc hw
  by_cases hsat : satisfies arr r t = 0
  · cases hE : (PyArray_Empty rt w arr.dimensions
        (if t = tAny then some arr.descr else rt.PyArray_DescrFromType t)).1 with
    | none =>
      rw [hno.2 hsat hE] at hret
      exact Outcome.noConfusion hret
    | some ret =>
      obtain ⟨d, w2, hd, _, _, hout, htmp, _⟩ :=
        NA_OutputArray_temporary_path rt w a t r arr ret hsrc hw hsat hE
      obtain ⟨htype, hany⟩ := temporary_descr rt t arr d htag hd
      rw [hout] at hret
      simp only [Outcome.returned.injEq, Option.some.injEq] at hret
      obtain ⟨hp2, hw2⟩ := hret
      subst hp2 hw2
      refine ⟨_, htmp, rfl, rfl, ?_, hany, ?_⟩
      · intro ht
        show d.type_num = t
        rw [htype, if_neg ht]
      · intro ht
        show d.type_num = _
        rw [htype]
        split_ifs
        · rfl
        · exact ht
  · rw [hno.1 hsat] at hret
    simp only [Outcome.returned.injEq, Option.some.injEq] at hret
    exact absurd hret.1.symm hp

/-- Witness of `NA_OutputArray_temporary_shape`: the temporary made for the array at pointer 1. -/
theorem NA_OutputArray_temporary_shape_witness :
    ∃ tmp, sampleOut.arrayAt 3 = some tmp ∧
      tmp.dimensions = (int32Array 0x0501).dimensions ∧
      NA_elements lp64 tmp = NA_elements lp64 (int32Array 0x0501) ∧
      (tFloat64 ≠ tAny → tmp.descr.type_num = tFloat64) ∧
      (tFloat64 = tAny → tmp.descr = (int32Array 0x0501).descr) ∧
      (tFloat64 = (int32Array 0x0501).descr.type_num →
        tmp.descr.type_num = (int32Array 0x0501).descr.type_num) :=
  NA_OutputArray_temporary_shape lp64 sampleWorld 1 tFloat64 0 (int32Array 0x0501) 3 sampleOut
    rfl (by decide) (Or.inr ⟨_, rfl, rfl⟩) rfl (by decide)

/-! ## `NA_IoArray` -/

/-- An assignment to the fields of an array changes no reference count. -/
theorem refcnt_updArray (w : World) (p q : Ptr) (f : PyArrayObject → PyArrayObject) :
    ((w.updArray p f).heap[q]?).map PyObject.ob_refcnt = (w.heap[q]?).map PyObject.ob_refcnt := by
  unfold World.updArray
  rw [heap_updObject]
  by_cases hq : q = p
  · subst hq
    cases w.heap[q]? <;> simp
  · simp [hq]

/-- The macro `Py_DECREF` takes one reference from the object. -/
theorem refcnt_DECREF (w : World) (p : Ptr) :
    ((Py_DECREF w p).heap[p]?).map PyObject.ob_refcnt =
      (w.heap[p]?).map (fun o => o.ob_refcnt - 1) := by
  unfold Py_DECREF
  rw [heap_updObject]
  cases w.heap[p]? <;> simp

/-- The release `PyArray_XDECREF_ERR` never returns a handle. -/
theorem PyArray_XDECREF_ERR_result (w : World) (obj : Ptr) :
    (PyArray_XDECREF_ERR w obj).result = none := by
  unfold PyArray_XDECREF_ERR
  cases w.arrayAt obj with
  | none => rfl
  | some arr =>
    simp only
    split_ifs
    · cases arr.base with
      | none => rfl
      | some b =>
        simp only
        cases w.arrayAt b <;> rfl
    · rfl

/-- The release `PyArray_XDECREF_ERR` of a well-formed handle (a copy-back temporary has a live
array as its base): it returns in a world with the same error indicator, where the handle has
one reference less and no copy-back flag. -/
theorem PyArray_XDECREF_ERR_spec (w : World) (s : Ptr) (arr : PyArrayObject)
    (hs : w.arrayAt s = some arr)
    (hwf : Int.land arr.flags NPY_UPDATEIFCOPY ≠ 0 →
      ∃ b, arr.base = some b ∧ (w.arrayAt b).isSome = true) :
    ∃ w', PyArray_XDECREF_ERR w s = Outcome.returned none w' ∧ w'.err = w.err ∧
      (w'.heap[s]?).map PyObject.ob_refcnt = (w.heap[s]?).map (fun o => o.ob_refcnt - 1) ∧
      ∃ x, w'.arrayAt s = some x ∧ Int.land x.flags NPY_UPDATEIFCOPY = 0 := by
  unfold PyArray_XDECREF_ERR
  simp only [hs]
  by_cases hu : Int.land arr.flags NPY_UPDATEIFCOPY = 0
  · simp only [hu, ne_eq, not_true_eq_false, if_false]
    refine ⟨_, rfl, ?_, refcnt_DECREF w s, arr, ?_, hu⟩
    · exact err_updObject _ _ _
    · rw [arrayAt_DECREF]
      exact hs
  · obtain ⟨b, hb, hlive⟩ := hwf hu
    obtain ⟨barr, hbarr⟩ := Option.isSome_iff_exists.1 hlive
    simp only [hu, ne_eq, not_false_eq_true, if_true, hb, hbarr]
    refine ⟨_, rfl, ?_, ?_, ?_⟩
    · unfold Py_DECREF World.updArray
      rw [err_updObject, err_updObject, err_updObject]
    · rw [refcnt_DECREF]
      have h1 := refcnt_updArray
        (w.updArray b (fun x => { x with flags := Int.lor x.flags NPY_WRITEABLE })) s s
        (fun x => { x with flags := Int.land x.flags (Int.lnot NPY_UPDATEIFCOPY) })
      have h2 := refcnt_updArray w b s
        (fun x => { x with flags := Int.lor x.flags NPY_WRITEABLE })
      cases h3 : w.heap[s]? with
      | none =>
        rw [h3] at h2
        rw [h2] at h1
        simp only [Option.map_eq_none', Option.map_none'] at h1 ⊢
        exact h1
      | some o =>
        rw [h3] at h2
        rw [h2] at h1
        simp only [Option.map_eq_some', Option.map_some'] at h1 ⊢
        obtain ⟨o2, ho2, hcnt⟩ := h1
        rw [ho2]
        simp [hcnt]
    · rw [arrayAt_DECREF, arrayAt_updArray, if_pos rfl, arrayAt_updArray]
      by_cases hsb : s = b
      · simp only [hsb, if_true, hbarr, Option.map_some']
        exact ⟨_, rfl, land_lnot_clear _ _⟩
      · simp only [hsb, if_false, hs, Option.map_some']
        exact ⟨_, rfl, land_lnot_clear _ _⟩

/-- Claim C3: `NA_IoArray` returns a handle `h` (in a world `w'`) if and only if `NA_InputArray`,
called with the copy-back flag `NPY_UPDATEIFCOPY` added to the mask, returns `h` (in `w'`) and
`h` is a writable array; so every handle it returns is writable.  When the handle of the input
stage is not writable, `NA_IoArray` is the release `PyArray_XDECREF_ERR` of that handle after
the type error of line 154 has been set, and returns no handle; for a well-formed handle it
returns NULL with that error set, the handle has one reference less and its copy-back flag is
clear. -/
theorem NA_IoArray_writable (rt : Runtime) (w : World) (a : Ptr) (t : NumarrayType) (r : Int) :
    (∀ h w', NA_IoArray rt w a t r = Outcome.returned (some h) w' ↔
      (NA_InputArray rt w a t (Int.lor r NPY_UPDATEIFCOPY) = (some h, w') ∧
        ∃ arr, w'.arrayAt h = some arr ∧ PyArray_ISWRITEABLE arr = true)) ∧
    (∀ s w1 arr, NA_InputArray rt w a t (Int.lor r NPY_UPDATEIFCOPY) = (some s, w1) →
      w1.arrayAt s = some arr → PyArray_ISWRITEABLE arr = false →
      NA_IoArray rt w a t r = PyArray_XDECREF_ERR (PyErr_Format w1 msgIoArray) s ∧
      (NA_IoArray rt w a t r).result = none ∧
      ((Int.land arr.flags NPY_UPDATEIFCOPY ≠ 0 →
          ∃ b, arr.base = some b ∧ (w1.arrayAt b).isSome = true) →
        ∃ w', NA_IoArray rt w a t r = Outcome.returned none w' ∧
          w'.err = some (PyErr.TypeError msgIoArray) ∧
          (w'.heap[s]?).map PyObject.ob_refcnt = (w1.heap[s]?).map (fun o => o.ob_refcnt - 1) ∧
          ∃ x, w'.arrayAt s = some x ∧ Int.land x.flags NPY_UPDATEIFCOPY = 0)) := by
  constructor
  · intro h w'
    unfold NA_IoArray
    cases hin : NA_InputArray rt w a t (Int.lor r NPY_UPDATEIFCOPY) with
    | mk x w1 =>
      cases x with
      | none => simp
      | some shadow =>
        simp only
        cases harr : w1.arrayAt shadow with
        | none =>
          simp only [Prod.mk.injEq, Option.some.injEq]
          constructor
          · intro hc
            exact Outcome.noConfusion hc
          · rintro ⟨⟨h1, h2⟩, arr, h3, _⟩
            subst h1 h2
            rw [harr] at h3
            exact absurd h3 (by simp)
        | some arr =>
          simp only [Prod.mk.injEq, Option.some.injEq]
          by_cases hw : PyArray_ISWRITEABLE arr = true
          · simp only [hw, not_true_eq_false, if_false, Outcome.returned.injEq,
              Option.some.injEq]
            constructor
            · rintro ⟨h1, h2⟩
              subst h1 h2
              exact ⟨⟨rfl, rfl⟩, arr, harr, hw⟩
            · rintro ⟨⟨h1, h2⟩, _⟩
              exact ⟨h1, h2⟩
          · have hw2 : PyArray_ISWRITEABLE arr = false := by
              cases hb : PyArray_ISWRITEABLE arr
              · rfl
              · exact absurd hb hw
            simp only [hw2, Bool.false_eq_true, not_false_eq_true, if_true]
            constructor
            · intro hc
              have := PyArray_XDECREF_ERR_result (PyErr_Format w1 msgIoArray) shadow
              rw [hc] at this
              exact absurd this (by simp [Outcome.result])
            · rintro ⟨⟨h1, h2⟩, arr2, h3, h4⟩
              subst h1 h2
              rw [harr] at h3
              rw [Option.some.inj h3] at hw
              exact absurd h4 hw
  · intro s w1 arr hin harr hw
    have heq : NA_IoArray rt w a t r = PyArray_XDECREF_ERR (PyErr_Format w1 msgIoArray) s := by
      unfold NA_IoArray
      simp only [hin, harr, hw, Bool.false_eq_true, not_false_eq_true, if_true]
    refine ⟨heq, ?_, ?_⟩
    · rw [heq]
      exact PyArray_XDECREF_ERR_result _ _
    · intro hwf
      rw [heq]
      exact PyArray_XDECREF_ERR_spec (PyErr_Format w1 msgIoArray) s arr harr hwf

/-- Witness of `NA_IoArray_writable`: the read-only array at pointer 2, which the input stage
hands back as it is, is refused and released. -/
theorem NA_IoArray_writable_witness :
    ∃ w', NA_IoArray lp64 sampleWorld 2 tAny 0 = Outcome.returned none w' ∧
      w'.err = some (PyErr.TypeError msgIoArray) ∧
      (w'.heap[(2 : Ptr)]?).map PyObject.ob_refcnt =
        ((Py_INCREF sampleWorld 2).heap[(2 : Ptr)]?).map (fun o => o.ob_refcnt - 1) ∧
      ∃ x, w'.arrayAt 2 = some x ∧ Int.land x.flags NPY_UPDATEIFCOPY = 0 :=
  ((NA_IoArray_writable lp64 sampleWorld 2 tAny 0).2 2 (Py_INCREF sampleWorld 2)
    (int32Array 0x0101) rfl rfl (by decide)).2.2 (fun h => absurd (by decide) h)

/-! ## `NA_elements` -/

/-- The loop of `NA_elements` multiplies modulo `2 ^ k`: started at `acc`, it ends congruent
to `acc` times the product of the dimensions. -/
theorem elements_loop_modEq (k : Nat) (dims : List Int) (acc : Nat) :
    ((dims.foldl (fun n d => ((n : Int) * d % 2 ^ k).toNat) acc : Nat) : Int) ≡
      (acc : Int) * dims.prod [ZMOD 2 ^ k] := by
  induction dims generalizing acc with
  | nil => simp [Int.ModEq]
  | cons d ds ih =>
    rw [List.foldl_cons, List.prod_cons]
    have hM : (2 : Int) ^ k ≠ 0 := pow_ne_zero _ (by norm_num)
    have hstep : ((((acc : Int) * d % 2 ^ k).toNat : Nat) : Int) = (acc : Int) * d % 2 ^ k :=
      Int.toNat_of_nonneg (Int.emod_nonneg _ hM)
    refine (ih _).trans ?_
    rw [hstep, ← mul_assoc]
    exact Int.ModEq.mul_right _ (Int.mod_modEq _ _)

/-- After at least one step the loop of `NA_elements` is below `2 ^ k`. -/
theorem elements_loop_lt (k : Nat) (d : Int) (ds : List Int) (acc : Nat) :
    ((d :: ds).foldl (fun n d => ((n : Int) * d % 2 ^ k).toNat) acc : Nat) < 2 ^ k := by
  induction ds generalizing acc d with
  | nil =>
    rw [List.foldl_cons, List.foldl_nil]
    have hM : (0 : Int) < 2 ^ k := by positivity
    have h1 := Int.emod_lt_of_pos ((acc : Int) * d) hM
    have h2 := Int.emod_nonneg ((acc : Int) * d) (ne_of_gt hM)
    zify
    rw [Int.toNat_of_nonneg h2]
    exact h1
  | cons e es ih =>
    rw [List.foldl_cons]
    exact ih e _

/-- The count `NA_elements` is congruent to the product of the dimensions modulo
`2 ^ NPY_BITSOF_LONG`. -/
theorem NA_elements_modEq (rt : Runtime) (a : PyArrayObject) :
    (NA_elements rt a : Int) ≡ a.dimensions.prod [ZMOD 2 ^ rt.NPY_BITSOF_LONG] := by
  have h := elements_loop_modEq rt.NPY_BITSOF_LONG a.dimensions 1
  simpa [NA_elements] using h

/-- The count `NA_elements` is the product of the dimensions when the product is non-negative
and representable as an `unsigned long`. -/
theorem NA_elements_eq_prod (rt : Runtime) (a : PyArrayObject)
    (h0 : 0 ≤ a.dimensions.prod) (hlt : a.dimensions.prod < 2 ^ rt.NPY_BITSOF_LONG) :
    (NA_elements rt a : Int) = a.dimensions.prod := by
  have hmod := NA_elements_modEq rt a
  cases hd : a.dimensions with
  | nil => simp [NA_elements, hd]
  | cons d ds =>
    have hb : NA_elements rt a < 2 ^ rt.NPY_BITSOF_LONG := by
      unfold NA_elements
      rw [hd]
      exact elements_loop_lt _ d ds 1
    have hb2 : (NA_elements rt a : Int) < 2 ^ rt.NPY_BITSOF_LONG := by exact_mod_cast hb
    rw [hd] at hmod h0 hlt
    unfold Int.ModEq at hmod
    rw [Int.emod_eq_of_lt (Int.natCast_nonneg _) hb2, Int.emod_eq_of_lt h0 hlt] at hmod
    exact hmod

/-- The count `NA_elements` of a handle of rank zero is 1. -/
theorem NA_elements_rank_zero (rt : Runtime) (a : PyArrayObject) (hnd : a.nd = 0) :
    NA_elements rt a = 1 := by
  have h : a.dimensions = [] := List.length_eq_zero.1 hnd
  simp [NA_elements, h]

/-- Claim C5, the failing input: on the LLP64 host (32-bit `unsigned long`, 64-bit `npy_intp`)
the runtime allocates the `int8` array of shape 4294967296; its dimensions are non-negative and
their product is 4294967296, and `NA_elements` of it is 0, since the loop of lines 167-168
multiplies in `unsigned long`.  The sibling loop of lines 216-222, which multiplies the same
entries in `npy_intp`, gives 4294967296. -/
theorem NA_elements_llp64_wraps :
    ∃ w' arr,
      PyArray_NewFromDescr llp64 emptyWorld { type_num := 1, elsize := 1, byteswapped := false }
        [4294967296] = (some 1, w') ∧
      w'.arrayAt 1 = some arr ∧ arr.nd = 1 ∧ (∀ d ∈ arr.dimensions, 0 ≤ d) ∧
      arr.dimensions.prod = 4294967296 ∧ NA_elements llp64 arr = 0 ∧
      shapeSize llp64 arr.dimensions = 4294967296 :=
  ⟨_, _, rfl, rfl, rfl, by decide, by decide, by decide, by decide⟩

/-! ## `NA_NewArray` -/

/-- The shape, the product of its entries and the byte count of an array the runtime could
allocate, on a platform whose `unsigned long` is at least as wide as `npy_intp`: the count
`NA_elements` is the product and `NA_NBYTES` is the element size times the product. -/
theorem NA_NBYTES_of_allocated (rt : Runtime) (arr : PyArrayObject)
    (hlong : rt.NPY_BITSOF_INTP ≤ rt.NPY_BITSOF_LONG + 1)
    (hnn : ∀ x ∈ arr.dimensions, 0 ≤ x) (hel : 0 < arr.descr.elsize)
    (hsize : arr.descr.elsize * arr.dimensions.prod < 2 ^ (rt.NPY_BITSOF_INTP - 1)) :
    (NA_elements rt arr : Int) = arr.dimensions.prod ∧
      (NA_NBYTES rt arr : Int) = arr.descr.elsize * arr.dimensions.prod := by
  have hprod : 0 ≤ arr.dimensions.prod := List.prod_nonneg hnn
  have hpow : (2 : Int) ^ (rt.NPY_BITSOF_INTP - 1) ≤ 2 ^ rt.NPY_BITSOF_LONG :=
    pow_le_pow_right₀ (by norm_num) (by omega)
  have hle : arr.dimensions.prod ≤ arr.descr.elsize * arr.dimensions.prod := by nlinarith
  have hcount := NA_elements_eq_prod rt arr hprod (by linarith)
  refine ⟨hcount, ?_⟩
  unfold NA_NBYTES
  rw [hcount]
  have h0 : 0 ≤ arr.descr.elsize * arr.dimensions.prod := by positivity
  rw [Int.emod_eq_of_lt h0 (by linarith)]
  exact Int.toNat_of_nonneg h0

/-- The count `NA_elements` of every array the runtime allocates, on a platform whose
`unsigned long` is at least as wide as `npy_intp`: it is the product of all entries of the
dimensions. -/
theorem NA_elements_of_allocated (rt : Runtime) (w : World) (d : PyArray_Descr)
    (dims : List Int) (p : Ptr)
    (hlong : rt.NPY_BITSOF_INTP ≤ rt.NPY_BITSOF_LONG + 1) (hel : 0 < d.elsize)
    (halloc : (PyArray_NewFromDescr rt w d dims).1 = some p) :
    ∃ arr, (PyArray_NewFromDescr rt w d dims).2.arrayAt p = some arr ∧
      arr.dimensions = dims ∧ (NA_elements rt arr : Int) = dims.prod := by
  obtain ⟨hp, hE, hnn, _, hsize⟩ := PyArray_NewFromDescr_some rt w d dims p halloc
  subst hp
  rw [hE]
  refine ⟨{ data := rt.garbage w, dimensions := dims, base := none, descr := d,
            flags := rt.newFlags d dims }, ?_, rfl, ?_⟩
  · show World.arrayAt { w with heap := w.heap ++ [newArray rt w d dims] } w.heap.length = _
    rw [arrayAt_append, if_pos rfl]
    rfl
  · exact (NA_NBYTES_of_allocated rt _ hlong hnn hel hsize).1

/-- Witness of `NA_elements_of_allocated`: a new `int32` array of shape 2 x 3. -/
theorem NA_elements_of_allocated_witness :
    ∃ arr, (PyArray_NewFromDescr lp64 emptyWorld
        { type_num := 5, elsize := 4, byteswapped := false } [2, 3]).2.arrayAt 1 = some arr ∧
      arr.dimensions = [2, 3] ∧ (NA_elements lp64 arr : Int) = ([2, 3] : List Int).prod :=
  NA_elements_of_allocated lp64 emptyWorld { type_num := 5, elsize := 4, byteswapped := false }
    [2, 3] 1 (by decide) (by decide) (by decide)

/-- The function `NA_NewArray` on a platform whose `unsigned long` is at least as wide as
`npy_intp`: for a tag with a descriptor of positive element size and a shape the runtime
allocates, it returns the new handle, of that shape, with `NA_elements` the product of the shape,
and with the `elsize * product(shape)` data bytes all zero for a NULL buffer and equal to the
bytes of the buffer otherwise. -/
theorem NA_NewArray_contents (rt : Runtime) (w : World) (buffer : Option (Nat → Nat))
    (type : NumarrayType) (shape : List Int) (d : PyArray_Descr) (p : Ptr)
    (hlong : rt.NPY_BITSOF_INTP ≤ rt.NPY_BITSOF_LONG + 1)
    (htype : rt.PyArray_DescrFromType (if type = tAny then tDefault else type) = some d)
    (hel : 0 < d.elsize)
    (halloc : (PyArray_NewFromDescr rt w d shape).1 = some p) :
    ∃ w' arr, NA_NewArray rt w buffer type shape = Outcome.returned (some p) w' ∧
      w'.arrayAt p = some arr ∧ arr.dimensions = shape ∧ arr.descr = d ∧
      (NA_elements rt arr : Int) = shape.prod ∧
      (buffer = none → ∀ i : Nat, (i : Int) < d.elsize * shape.prod → arr.data i = 0) ∧
      (∀ buf, buffer = some buf →
        ∀ i : Nat, (i : Int) < d.elsize * shape.prod → arr.data i = buf i) := by
  obtain ⟨hp, hE, hnn, _, hsize⟩ := PyArray_NewFromDescr_some rt w d shape p halloc
  subst hp
  have hget : (w.heap ++ [newArray rt w d shape])[w.heap.length]? =
      some (newArray rt w d shape) := by simp
  have hbytes := NA_NBYTES_of_allocated rt
    { data := rt.garbage w, dimensions := shape, base := none, descr := d,
      flags := rt.newFlags d shape } hlong hnn hel hsize
  obtain ⟨hcount, hnb⟩ := hbytes
  simp only at hcount hnb
  simp only [newArray] at hget
  cases buffer with
  | none =>
    refine ⟨World.updArray { w with heap := w.heap ++ [newArray rt w d shape] } w.heap.length
        (fun x => { x with data := memset x.data 0 (NA_NBYTES rt
          { data := rt.garbage w, dimensions := shape, base := none, descr := d,
            flags := rt.newFlags d shape }) }),
      { data := memset (rt.garbage w) 0 (NA_NBYTES rt
          { data := rt.garbage w, dimensions := shape, base := none, descr := d,
            flags := rt.newFlags d shape }),
        dimensions := shape, base := none, descr := d, flags := rt.newFlags d shape },
      ?_, ?_, ?_⟩
    · unfold NA_NewArray NA_NewAll NA_NewAllFromBuffer
      simp only [htype, ne_eq, not_true_eq_false, if_false, if_true, hE, hget, newArray]
    · rw [arrayAt_updArray, if_pos rfl, arrayAt_append, if_pos rfl]
      rfl
    · refine ⟨rfl, rfl, hcount, fun _ i hi => ?_, fun buf hb => by simp at hb⟩
      show memset _ _ _ i = 0
      unfold memset
      rw [if_pos]
      rw [← hnb] at hi
      exact_mod_cast hi
  | some buf =>
    refine ⟨World.updArray { w with heap := w.heap ++ [newArray rt w d shape] } w.heap.length
        (fun x => { x with data := memcpy x.data buf (NA_NBYTES rt
          { data := rt.garbage w, dimensions := shape, base := none, descr := d,
            flags := rt.newFlags d shape }) }),
      { data := memcpy (rt.garbage w) buf (NA_NBYTES rt
          { data := rt.garbage w, dimensions := shape, base := none, descr := d,
            flags := rt.newFlags d shape }),
        dimensions := shape, base := none, descr := d, flags := rt.newFlags d shape },
      ?_, ?_, ?_⟩
    · unfold NA_NewArray NA_NewAll NA_NewAllFromBuffer
      simp only [htype, ne_eq, not_true_eq_false, if_false, if_true, hE, hget, newArray]
    · rw [arrayAt_updArray, if_pos rfl, arrayAt_append, if_pos rfl]
      rfl
    · refine ⟨rfl, rfl, hcount, fun hb => by simp at hb, fun buf2 hb i hi => ?_⟩
      simp only [Option.some.injEq] at hb
      subst hb
      show memcpy _ _ _ i = buf i
      unfold memcpy
      rw [if_pos]
      rw [← hnb] at hi
      exact_mod_cast hi

/-- Witness of `NA_NewArray_contents`: a new `float64` array of shape 2 x 3 in `emptyWorld`. -/
theorem NA_NewArray_contents_witness :
    ∃ w' arr, NA_NewArray lp64 emptyWorld none tAny [2, 3] = Outcome.returned (some 1) w' ∧
      w'.arrayAt 1 = some arr ∧ arr.dimensions = [2, 3] ∧
      arr.descr = { type_num := 12, elsize := 8, byteswapped := false } ∧
      (NA_elements lp64 arr : Int) = ([2, 3] : List Int).prod ∧
      ((none : Option (Nat → Nat)) = none →
        ∀ i : Nat, (i : Int) < 8 * ([2, 3] : List Int).prod → arr.data i = 0) ∧
      (∀ buf, (none : Option (Nat → Nat)) = some buf →
        ∀ i : Nat, (i : Int) < 8 * ([2, 3] : List Int).prod → arr.data i = buf i) :=
  NA_NewArray_contents lp64 emptyWorld none tAny [2, 3]
    { type_num := 12, elsize := 8, byteswapped := false } 1 (by decide) rfl (by decide)
    (by decide)

/-- Claim C6, the failing input: on the LLP64 host (32-bit `unsigned long`, 64-bit `npy_intp`),
`NA_NewArray(buffer, tInt8, 1, {4294967296})` succeeds and returns a handle of shape 4294967296
with element size 1, for which `NA_elements` is 0 instead of 4294967296 and `NA_NBYTES` is 0.
So with a NULL buffer `memset` clears nothing and byte 0 of the new array still holds what the
memory held (255 here), and with a buffer of bytes 1 `memcpy` copies nothing and byte 0 of the
new array is 255, not the byte 1 of the buffer. -/
theorem NA_NewArray_llp64_truncates :
    (∃ w' arr, NA_NewArray llp64 emptyWorld none 1 [4294967296] = Outcome.returned (some 1) w' ∧
      w'.arrayAt 1 = some arr ∧ arr.dimensions = [4294967296] ∧ arr.descr.elsize = 1 ∧
      NA_elements llp64 arr = 0 ∧ NA_NBYTES llp64 arr = 0 ∧ arr.data 0 = 255) ∧
    (∃ w' arr, NA_NewArray llp64 emptyWorld (some (fun _ => 1)) 1 [4294967296] =
        Outcome.returned (some 1) w' ∧
      w'.arrayAt 1 = some arr ∧ arr.dimensions = [4294967296] ∧ arr.descr.elsize = 1 ∧
      NA_elements llp64 arr = 0 ∧ NA_NBYTES llp64 arr = 0 ∧ arr.data 0 = 255) :=
  ⟨⟨_, _, rfl, rfl, rfl, rfl, by decide, by decide, rfl⟩,
   ⟨_, _, rfl, rfl, rfl, rfl, by decide, by decide, rfl⟩⟩

end NdImage
